import Mathlib

/-!
Shallow embedding of the AI feature-creation chat orchestrator
(`server/services/feature_chat_session.py` and `server/routers/ai_features.py`).

The embedding models:
  - the trigger-file payload and its Python-truthiness-sensitive priority field,
  - the feature store insert performed by `FeatureChatSession._create_feature_in_db`,
  - the event loop of `FeatureChatSession._query_claude` as a pure fold over the
    agent response stream, threading session state, the filesystem trigger file
    and the store,
  - `send_message`, `start`, `close` and the session registry
    (`create_session`), and the websocket handler loop of
    `ai_feature_chat_websocket`.

Machine-level concerns (timestamps, logging, the actual SDK transport and the
settings artifact) carry no information relevant to the verified claims and are
dropped; filesystem state is the content of the single project trigger file; a
store failure (any exception raised inside the DB `with` block) is modelled by a
`broken` flag on the store; the agent writing files between stream events is an
environment action, modelled by an explicit environment event in the stream.
-/

/-- Boolean test that the first list is a prefix of the character list `hay`.
Helper for the Python substring test. -/
def listStartsWith : List Char → List Char → Bool
  | _, [] => true
  | [], _ :: _ => false
  | h :: hs, n :: ns => h == n && listStartsWith hs ns

/-- Boolean test that `ns` occurs contiguously inside the second list. -/
def listHasSub (ns : List Char) : List Char → Bool
  | [] => ns.isEmpty
  | h :: t => listStartsWith (h :: t) ns || listHasSub ns t

/-- Models the Python expression `needle in hay` on strings (substring test),
as used on line 196 of `feature_chat_session.py`. -/
def strContains (hay needle : String) : Bool :=
  listHasSub needle.toList hay.toList

/-- A JSON value found under the `priority` key of the trigger payload.  The
code only distinguishes ints (`isinstance(p, int)`) from everything else; the
spec mentions numbers and strings such as `Auto` / `High`, so those two shapes
are modelled. -/
inductive PrioVal where
  | pInt (n : Int)
  | pStr (s : String)
deriving DecidableEq, Repr

/-- The parsed trigger-file payload (a JSON object).  `none` in a field means
the key is absent from the object; the code checks key presence with
`"name" in content`. -/
structure Payload where
  name : Option String
  description : Option String
  category : Option String
  priority : Option PrioVal
  steps : Option (List String)
deriving DecidableEq, Repr

/-- Content of the trigger file on disk: either text that `json.loads`
rejects (raising, hence reaching the error branch), or a parsed payload. -/
inductive TrigContent where
  | invalid
  | valid (p : Payload)
deriving DecidableEq, Repr

/-- A persisted Feature row, with the fields the orchestrator sets
(`Feature(priority=..., category=..., name=..., description=..., steps=...,
passes=False)` plus the DB-assigned id read back after commit). -/
structure Feature where
  id : Nat
  priority : Int
  category : String
  name : String
  description : String
  steps : List String
  passes : Bool
deriving DecidableEq, Repr

/-- The per-project store: the persisted features, the id the next insert will
receive, and a flag marking that the next DB operation raises (modelling any
exception inside the `with get_db_session(...)` block). -/
structure Store where
  features : List Feature
  nextId : Nat
  broken : Bool
deriving DecidableEq, Repr

/-- The `FeatureCreate` schema object built on lines 242-248 of
`feature_chat_session.py`.  Its `priority` field keeps the shape the DB code
tests for (`is None or isinstance(..., str)`), although the caller always
passes an int. -/
structure FeatureCreate where
  name : String
  description : String
  category : String
  priority : Option PrioVal
  steps : List String
deriving DecidableEq, Repr

/-- Models `session.query(Feature).order_by(Feature.priority.desc()).first()`:
some feature attaining the maximum priority, or none when the store is empty. -/
def maxByPriority : List Feature → Option Feature
  | [] => none
  | f :: fs =>
    match maxByPriority fs with
    | none => some f
    | some g => if g.priority > f.priority then some g else some f

/-- Models `(max_priority.priority + 1) if max_priority else 1`
(line 257 of `feature_chat_session.py`). -/
def maxPriorityPlusOne (st : Store) : Int :=
  match maxByPriority st.features with
  | some f => f.priority + 1
  | none => 1

/-- Models lines 233-238 of `feature_chat_session.py`:
`priority = 1` then `if data.get("priority"):` (Python truthiness: the int 0
and the empty string are falsy) and `if isinstance(p, int): priority = p`.
A present, truthy, non-int priority (such as the string Auto) keeps the
default 1. -/
def resolveGivenPriority : Option PrioVal → Int
  | some (.pInt n) => if n = 0 then 1 else n
  | _ => 1

/-- Models the construction of the `FeatureCreate` object (lines 240-248):
name and description taken from the payload, category defaulting to General,
steps defaulting to the empty list, and priority always the already-resolved
int. -/
def buildFeatureCreate (nm ds : String) (data : Payload) : FeatureCreate :=
  { name := nm
    description := ds
    category := (data.category).getD "General"
    priority := some (.pInt (resolveGivenPriority data.priority))
    steps := (data.steps).getD [] }

/-- The test on line 255 of `feature_chat_session.py`:
`feature_create.priority is None or isinstance(feature_create.priority, str)`. -/
def priorityIsNoneOrStr (fc : FeatureCreate) : Bool :=
  match fc.priority with
  | none => true
  | some (.pStr _) => true
  | some (.pInt _) => false

/-- Models `FeatureChatSession._create_feature_in_db` (lines 229-275).
`data["name"]` / `data["description"]` raise `KeyError` when absent, modelled
as an error result; a broken store models any exception raised inside the DB
`with` block; on line 255-259 the priority is re-examined: the max-priority
query runs only when `feature_create.priority` is None or a string, which the
construction above never produces.  Errors are logged and re-raised, so the
result is an `Except`. -/
def create_feature_in_db (data : Payload) (st : Store) : Except Unit (Feature × Store) :=
  match data.name, data.description with
  | some nm, some ds =>
    let fc := buildFeatureCreate nm ds data
    if st.broken then .error () else
    let pr : Int :=
      match fc.priority with
      | none => maxPriorityPlusOne st
      | some (.pStr _) => maxPriorityPlusOne st
      | some (.pInt n) => n
    let f : Feature :=
      { id := st.nextId, priority := pr, category := fc.category,
        name := fc.name, description := fc.description,
        steps := fc.steps, passes := false }
    .ok (f, { st with features := st.features ++ [f], nextId := st.nextId + 1 })
  | _, _ => .error ()

/-- A history entry in `self.messages` (role and content; the timestamp and
attachment flag carry no verified information). -/
structure HistMsg where
  role : String
  content : String
deriving DecidableEq, Repr

/-- The mutable state of one `FeatureChatSession` set up in `__init__`
(lines 52-60): `clientOpen` models `self.client is not None` after a
successful `__aenter__`; `messages`, `complete` and `createdFeatureId`
mirror the fields of the same names. -/
structure SessionState where
  clientOpen : Bool
  messages : List HistMsg
  complete : Bool
  createdFeatureId : Option Nat
deriving DecidableEq, Repr

/-- External world touched by a session: the project store and the content of
the project trigger file `<project_dir>/.new_feature.json` (`none` when the
file does not exist). -/
structure World where
  store : Store
  trigger : Option TrigContent
deriving DecidableEq, Repr

/-- An outward protocol chunk / websocket frame body.  `featureCreated`
carries the raw parsed payload, as on line 218; `pong` is emitted by the
websocket handler. -/
inductive Chunk where
  | text (content : String)
  | featureCreated (feature : Payload)
  | error (content : String)
  | responseDone
  | pong
deriving DecidableEq, Repr

/-- Boolean recogniser for feature-created chunks. -/
def Chunk.isFeatureCreated : Chunk → Bool
  | .featureCreated _ => true
  | _ => false

/-- A content block of an agent `AssistantMessage`: a text block, a tool-use
block (with the tool name and the `file_path` input), or any other block,
which the loop ignores. -/
inductive Block where
  | textBlock (text : String)
  | toolUse (name : String) (filePath : String)
  | otherBlock
deriving DecidableEq, Repr

/-- One message of the agent response stream consumed by `_query_claude`.
`userMessage` is the tool-result message; `envWrite` is not a stream message
of the source but the environment action of the agent tool execution mutating
the trigger file between stream events (required to model that the file the
tool-result check reads was produced by the preceding tool call); `otherMsg`
covers all message types the loop ignores. -/
inductive Msg where
  | assistantMessage (blocks : List Block)
  | userMessage
  | envWrite (t : Option TrigContent)
  | otherMsg
deriving DecidableEq, Repr

/-- Result of one full turn of the pipeline: final session state, final world,
and the chunks yielded in order. -/
structure TurnResult where
  sess : SessionState
  world : World
  chunks : List Chunk
deriving DecidableEq, Repr

/-- Result of folding over the blocks of one `AssistantMessage`. -/
structure BlocksResult where
  sess : SessionState
  pending : Bool
  cur : String
  chunks : List Chunk
deriving DecidableEq, Repr

namespace FeatureChatSession

/-- The trigger filename constant `.new_feature.json`. -/
def triggerName : String := ".new_feature.json"

/-- Models lines 183-198 of `feature_chat_session.py`: the inner loop over
`msg.content`.  A non-empty text block extends the running buffer, yields a
text chunk and appends to history; a Write/Edit tool-use block whose
`file_path` contains the trigger filename as a substring arms the
pending-write flag. -/
def processBlocks (s : SessionState) (pending : Bool) (cur : String) :
    List Block → BlocksResult
  | [] => ⟨s, pending, cur, []⟩
  | .textBlock t :: bs =>
    if t = "" then processBlocks s pending cur bs
    else
      let s1 : SessionState := { s with messages := s.messages ++ [⟨"assistant", t⟩] }
      let r := processBlocks s1 pending (cur ++ t) bs
      { r with chunks := .text t :: r.chunks }
  | .toolUse nm fp :: bs =>
    let pending1 := if (nm == "Write" || nm == "Edit") && strContains fp triggerName
                    then true else pending
    processBlocks s pending1 cur bs
  | .otherBlock :: bs => processBlocks s pending cur bs

/-- Outcome of the tool-result branch: new session state and world, chunks
yielded, and whether the generator returns (ending the turn). -/
structure ToolResultOutcome where
  sess : SessionState
  world : World
  chunks : List Chunk
  stop : Bool
deriving DecidableEq, Repr

/-- Models lines 202-227 of `feature_chat_session.py`, the body under
`if pending_feature_json_write:` of the `UserMessage` branch.  If the trigger
file does not exist nothing happens; unparseable content raises inside the
`try`, yielding the error chunk; a parsed payload with both required keys is
inserted, the session is marked complete, the feature-created chunk is
yielded, the file is deleted and the generator returns; an insert failure
yields the error chunk; a payload missing a required key falls through
silently.  In every non-returning case the pending flag ends cleared
(line 227). -/
def handleToolResult (s : SessionState) (w : World) : ToolResultOutcome :=
  match w.trigger with
  | none => ⟨s, w, [], false⟩
  | some .invalid => ⟨s, w, [.error "Failed to create feature from definition."], false⟩
  | some (.valid p) =>
    if p.name.isSome && p.description.isSome then
      match create_feature_in_db p w.store with
      | .ok (f, st1) =>
        ⟨{ s with complete := true, createdFeatureId := some f.id },
         { store := st1, trigger := none },
         [.featureCreated p], true⟩
      | .error _ => ⟨s, w, [.error "Failed to create feature from definition."], false⟩
    else ⟨s, w, [], false⟩

/-- Models the `async for msg in self.client.receive_response()` loop of
`_query_claude` (lines 175-227) as a fold over the stream, starting from the
given pending flag and text buffer. -/
def queryLoop (s : SessionState) (w : World) (pending : Bool) (cur : String) :
    List Msg → TurnResult
  | [] => ⟨s, w, []⟩
  | .assistantMessage blocks :: rest =>
    let br := processBlocks s pending cur blocks
    let r := queryLoop br.sess w br.pending br.cur rest
    { r with chunks := br.chunks ++ r.chunks }
  | .userMessage :: rest =>
    if pending then
      let o := handleToolResult s w
      if o.stop then ⟨o.sess, o.world, o.chunks⟩
      else
        let r := queryLoop o.sess o.world false cur rest
        { r with chunks := o.chunks ++ r.chunks }
    else queryLoop s w pending cur rest
  | .envWrite t :: rest => queryLoop s { w with trigger := t } pending cur rest
  | .otherMsg :: rest => queryLoop s w pending cur rest

/-- Models `_query_claude` (lines 156-227): with no client the generator
returns immediately with no chunks; otherwise the stream is consumed starting
with a cleared pending flag and an empty buffer.  The outgoing query itself
(text or multimodal) does not influence the chunk translation and is
represented by the response stream `msgs`. -/
def query_claude (s : SessionState) (w : World) (msgs : List Msg) : TurnResult :=
  if s.clientOpen then queryLoop s w false "" msgs else ⟨s, w, []⟩

/-- Models `send_message` (lines 134-154): without a client, exactly one error
chunk and no state change; otherwise the user message is appended to history,
the query pipeline runs, and the response-done marker is yielded after the
stream ends. -/
def send_message (s : SessionState) (w : World) (userMessage : String)
    (msgs : List Msg) : TurnResult :=
  if s.clientOpen then
    let s1 : SessionState := { s with messages := s.messages ++ [⟨"user", userMessage⟩] }
    let r := query_claude s1 w msgs
    { r with chunks := r.chunks ++ [.responseDone] }
  else ⟨s, w, [.error "Session not initialized"]⟩

/-- Models `__init__` (lines 52-60): no client, empty history, not complete,
no created feature id. -/
def initSession : SessionState :=
  { clientOpen := false, messages := [], complete := false, createdFeatureId := none }

/-- Models `start` (lines 72-132).  `skillExists` is the skill-file check;
a missing skill yields one error chunk and changes nothing.  Otherwise any
stale trigger file is removed (lines 87-89), the settings artifact is written
(configuration only, no modelled state), and the client is opened;
`clientOk` models whether the open raises.  On failure one error chunk is
yielded and the client stays absent; on success the bootstrap query runs and
the response-done marker follows. -/
def start (s : SessionState) (w : World) (skillExists clientOk : Bool)
    (msgs : List Msg) : TurnResult :=
  if skillExists then
    let w1 : World := { w with trigger := none }
    if clientOk then
      let s1 : SessionState := { s with clientOpen := true }
      let r := query_claude s1 w1 msgs
      { r with chunks := r.chunks ++ [.responseDone] }
    else ⟨s, w1, [.error "Failed to create Claude client"]⟩
  else ⟨s, w, [.error "Skill not found"]⟩

/-- Models `close` (lines 62-70): releases the client if one was opened,
touching no other field; idempotent. -/
def close (s : SessionState) : SessionState :=
  if s.clientOpen then { s with clientOpen := false } else s

end FeatureChatSession

/-- A registry entry: the abstract identity of one `FeatureChatSession` object
and whether `close` has completed on it. -/
structure RegSession where
  sid : Nat
  closed : Bool
deriving DecidableEq, Repr

/-- State of the module-level registry (`_sessions` and the session objects it
ever created): the project-name-to-session map as an association list, all
session objects ever created (so evicted ones remain observable), and the
identity the next construction receives. -/
structure RegState where
  map : List (String × Nat)
  sessions : List RegSession
  nextSid : Nat
deriving DecidableEq, Repr

/-- Removal of a key from the association list (the `pop` part of
`_sessions.pop(project_name, None)`). -/
def eraseKey (m : List (String × Nat)) (k : String) : List (String × Nat) :=
  m.filter (fun e => e.1 != k)

/-- Lookup in the association list (`_sessions.get(project_name)`). -/
def lookupKey (m : List (String × Nat)) (k : String) : Option Nat :=
  (m.find? (fun e => e.1 == k)).map (fun e => e.2)

/-- Marks the session object with the given identity closed
(the effect of `await old_session.close()`). -/
def markClosed (r : RegState) (sid : Nat) : RegState :=
  { r with sessions :=
      r.sessions.map (fun t => if t.sid == sid then { t with closed := true } else t) }

/-- Whether the session object with the given identity has been closed
(vacuously true when no such object exists). -/
def isClosed (r : RegState) (sid : Nat) : Bool :=
  match r.sessions.find? (fun t => t.sid == sid) with
  | some t => t.closed
  | none => true

/-- Models the `with _sessions_lock:` block of `create_session`
(lines 287-290): atomically pop any existing session for the name, construct a
fresh session object and install it; returns the new state and the identity of
the evicted session, if any. -/
def create_session_locked (r : RegState) (name : String) : RegState × Option Nat :=
  (({ map := (name, r.nextSid) :: eraseKey r.map name,
      sessions := r.sessions ++ [⟨r.nextSid, false⟩],
      nextSid := r.nextSid + 1 } : RegState),
   lookupKey r.map name)

/-- Models lines 292-294 of `create_session`: after the lock is released, the
evicted session, if any, is closed (failures swallowed). -/
def create_session_close (r : RegState) (old : Option Nat) : RegState :=
  match old with
  | some sid => markClosed r sid
  | none => r

/-- The registry states reachable during one `create_session` call, in order:
the state right after the locked swap (lock released, old session not yet
closed) and the state after the close completes. -/
def create_session_trace (r : RegState) (name : String) : List RegState :=
  [(create_session_locked r name).1,
   create_session_close (create_session_locked r name).1 (create_session_locked r name).2]

/-- The key set of the registry map has no duplicates (each project identifier
maps to at most one session). -/
def keysNodup (m : List (String × Nat)) : Prop :=
  (m.map Prod.fst).Nodup

instance (m : List (String × Nat)) : Decidable (keysNodup m) := by
  unfold keysNodup; infer_instance

/-- An inbound websocket text frame after the `json.loads` / `type` dispatch
of `ai_feature_chat_websocket`: text that is not valid JSON, or a parsed
object classified by its `type` value.  `unknownType` covers objects whose
type matches no branch (nothing is sent, the loop continues). -/
inductive InFrame where
  | malformed
  | ping
  | start
  | message (content : String)
  | unknownType
deriving DecidableEq, Repr

/-- The handler-loop state: the local `session` variable (which in this
single-connection model is also the registry content for the project) and the
world shared with it. -/
structure HandlerState where
  sess : Option SessionState
  w : World
deriving DecidableEq, Repr

/-- Models one iteration of the receive loop of `ai_feature_chat_websocket`
(lines 46-87).  `skillExists`, `clientOk` and `script` parameterize the
environment of a started session exactly as in `FeatureChatSession.start` and
`send_message`: malformed JSON sends one error frame and continues; ping sends
pong; start installs a fresh session (replacing any prior one) and relays the
chunks of its `start`; message without a session sends one error frame,
message with empty trimmed content sends nothing, and otherwise the trimmed
content goes through `send_message` with the chunks relayed in order. -/
def ai_feature_chat_step (skillExists clientOk : Bool) (script : List Msg)
    (hs : HandlerState) : InFrame → HandlerState × List Chunk
  | .malformed => (hs, [.error "Invalid JSON"])
  | .ping => (hs, [.pong])
  | .start =>
    let r := FeatureChatSession.start FeatureChatSession.initSession hs.w
      skillExists clientOk script
    (⟨some r.sess, r.world⟩, r.chunks)
  | .message c =>
    match hs.sess with
    | none => (hs, [.error "No active session. Send start first."])
    | some s =>
      if c.trim = "" then (hs, [])
      else
        let r := FeatureChatSession.send_message s hs.w c.trim script
        (⟨some r.sess, r.world⟩, r.chunks)
  | .unknownType => (hs, [])

/-- The receive loop of `ai_feature_chat_websocket` over a finite sequence of
inbound frames, collecting every outbound frame in order. -/
def ai_feature_chat_loop (skillExists clientOk : Bool) (script : List Msg)
    (hs : HandlerState) : List InFrame → List Chunk
  | [] => []
  | f :: rest =>
    let p := ai_feature_chat_step skillExists clientOk script hs f
    p.2 ++ ai_feature_chat_loop skillExists clientOk script p.1 rest

/-- C6: for every call to `send_message` on a session whose client was never
successfully opened, the call yields exactly one error chunk and has no side
effects: session state, history and world (store and trigger file) are
returned unchanged, and no query reaches the client. -/
theorem C6_send_message_without_client (s : SessionState) (w : World)
    (m : String) (msgs : List Msg) (h : s.clientOpen = false) :
    FeatureChatSession.send_message s w m msgs =
      ⟨s, w, [Chunk.error "Session not initialized"]⟩ := by
  simp [FeatureChatSession.send_message, h]

/-- Witness for C6 at the freshly initialized session and an empty store. -/
theorem C6_send_message_without_client_witness :
    FeatureChatSession.initSession.clientOpen = false ∧
    FeatureChatSession.send_message FeatureChatSession.initSession
        ⟨⟨[], 0, false⟩, none⟩ "hello" [] =
      ⟨FeatureChatSession.initSession, ⟨⟨[], 0, false⟩,
        none⟩, [Chunk.error "Session not initialized"]⟩ :=
  ⟨rfl, C6_send_message_without_client _ _ _ _ rfl⟩

/-- C7: an inbound frame that is not valid JSON makes the handler emit exactly
one error frame; the connection stays open and the remaining frames are
processed exactly as they would have been without the malformed frame (the
handler state is unchanged). -/
theorem C7_malformed_json_single_error (skillExists clientOk : Bool)
    (script : List Msg) (hs : HandlerState) (rest : List InFrame) :
    ai_feature_chat_loop skillExists clientOk script hs (InFrame.malformed :: rest) =
      Chunk.error "Invalid JSON" ::
        ai_feature_chat_loop skillExists clientOk script hs rest := by
  simp [ai_feature_chat_loop, ai_feature_chat_step]

/-- C8: processing a tool-use event arms the pending-write flag exactly when
the tool is Write or Edit and the string `.new_feature.json` occurs as a
substring of the event file path; afterwards the loop continues depending only
on that Boolean (the written path is forgotten), so the subsequent tool-result
check reads the project-directory trigger file regardless of which path was
actually written. -/
theorem C8_trigger_substring_arms_flag (s : SessionState) (w : World)
    (pending : Bool) (cur : String) (nm fp : String) (rest : List Msg) :
    FeatureChatSession.queryLoop s w pending cur
        (Msg.assistantMessage [Block.toolUse nm fp] :: rest) =
      FeatureChatSession.queryLoop s w
        (pending || ((nm == "Write" || nm == "Edit") &&
          strContains fp FeatureChatSession.triggerName)) cur rest := by
  cases hc : ((nm == "Write" || nm == "Edit") &&
      strContains fp FeatureChatSession.triggerName) <;>
    simp [FeatureChatSession.queryLoop, FeatureChatSession.processBlocks, hc]

/-- C1 (code bug): on the payload with name and description but no priority,
against a store already holding a feature of priority 5, the code inserts a
row with priority 1 (the caller pre-resolves the priority to the int 1, so the
None-or-string test guarding the max-priority query never fires), while the
claimed value, one more than the maximum existing priority, is 6.  Category
General and empty steps do hold. -/
theorem C1_priority_defaults_to_one_not_max :
    create_feature_in_db ⟨some "X", some "Y", none, none, none⟩
        ⟨[⟨0, 5, "General", "A", "B", [], false⟩], 1, false⟩ =
      .ok (⟨1, 1, "General", "X", "Y", [], false⟩,
        ⟨[⟨0, 5, "General", "A", "B", [], false⟩,
          ⟨1, 1, "General", "X", "Y", [], false⟩], 2, false⟩) ∧
    maxPriorityPlusOne ⟨[⟨0, 5, "General", "A", "B", [], false⟩], 1, false⟩ = 6 ∧
    priorityIsNoneOrStr (buildFeatureCreate "X" "Y"
      ⟨some "X", some "Y", none, none, none⟩) = false :=
  ⟨rfl, rfl, rfl⟩

/-- C4 counterexample: the numeric priority 0 is falsy in Python, so
`if data.get("priority"):` skips it and the inserted row has priority 1, not
the given 0. -/
theorem C4_counterexample_priority_zero :
    create_feature_in_db ⟨some "X", some "Y", none, some (.pInt 0), none⟩ ⟨[], 0, false⟩ =
      .ok (⟨0, 1, "General", "X", "Y", [], false⟩,
        ⟨[⟨0, 1, "General", "X", "Y", [], false⟩], 1, false⟩) ∧
    (1 : Int) ≠ 0 :=
  ⟨rfl, by decide⟩

/-- C4 amended: for every payload with name, description and a nonzero integer
priority p, inserting against a working store puts in a row whose priority is
exactly p, and the FeatureCreate object built for it never satisfies the
None-or-string test, so the max-priority query is not run. -/
theorem C4_nonzero_int_priority_used_as_is (nm ds : String) (cat : Option String)
    (steps : Option (List String)) (p : Int) (st : Store)
    (hp : p ≠ 0) (hb : st.broken = false) :
    create_feature_in_db ⟨some nm, some ds, cat, some (.pInt p), steps⟩ st =
      .ok (⟨st.nextId, p, cat.getD "General", nm, ds, steps.getD [], false⟩,
        ⟨st.features ++ [⟨st.nextId, p, cat.getD "General", nm, ds, steps.getD [], false⟩],
          st.nextId + 1, st.broken⟩) ∧
    priorityIsNoneOrStr (buildFeatureCreate nm ds
      ⟨some nm, some ds, cat, some (.pInt p), steps⟩) = false := by
  constructor
  · simp [create_feature_in_db, buildFeatureCreate, resolveGivenPriority, hb, hp]
  · simp [priorityIsNoneOrStr, buildFeatureCreate]

/-- Witness for C4 amended at priority 5 against an empty store. -/
theorem C4_nonzero_int_priority_used_as_is_witness :
    (5 : Int) ≠ 0 ∧ ((⟨[], 0, false⟩ : Store).broken = false) ∧
    (create_feature_in_db ⟨some "X", some "Y", none, some (.pInt 5), none⟩ ⟨[], 0, false⟩ =
      .ok (⟨0, 5, "General", "X", "Y", [], false⟩,
        ⟨[⟨0, 5, "General", "X", "Y", [], false⟩], 1, false⟩) ∧
     priorityIsNoneOrStr (buildFeatureCreate "X" "Y"
       ⟨some "X", some "Y", none, some (.pInt 5), none⟩) = false) :=
  ⟨by decide, rfl, by
    have h := C4_nonzero_int_priority_used_as_is "X" "Y" none none 5
      ⟨[], 0, false⟩ (by decide) rfl
    exact h⟩

/-- C2 counterexample: with the pending-write flag armed and a trigger file
whose payload has a name but no description, processing the tool-result event
emits no chunk at all (the claimed error chunk does not exist), inserts
nothing, and leaves session and world unchanged. -/
theorem C2_counterexample_missing_description_silent :
    FeatureChatSession.queryLoop FeatureChatSession.initSession
        ⟨⟨[], 0, false⟩, some (.valid ⟨some "X", none, none, none, none⟩)⟩
        true "" [Msg.userMessage] =
      ⟨FeatureChatSession.initSession,
        ⟨⟨[], 0, false⟩, some (.valid ⟨some "X", none, none, none, none⟩)⟩, []⟩ :=
  rfl

/-- C2 amended: when the armed tool-result check finds a trigger payload
missing the name or the description key, the pipeline emits no chunk for that
event (it skips silently), inserts no row, and clears the pending-write flag;
the turn continues exactly as a run with the flag cleared, so a later valid
trigger write within the same turn can still create a feature. -/
theorem C2_missing_field_skips_silently (s : SessionState) (w : World)
    (cur : String) (p : Payload) (rest : List Msg)
    (ht : w.trigger = some (.valid p))
    (hv : (p.name.isSome && p.description.isSome) = false) :
    FeatureChatSession.queryLoop s w true cur (Msg.userMessage :: rest) =
      FeatureChatSession.queryLoop s w false cur rest := by
  simp [FeatureChatSession.queryLoop, FeatureChatSession.handleToolResult, ht, hv]

/-- Witness for C2 amended: after the silent skip, a later valid write of the
trigger file within the same turn still produces a feature-created chunk. -/
theorem C2_missing_field_skips_silently_witness :
    ((⟨⟨[], 0, false⟩, some (.valid ⟨some "X", none, none, none, none⟩)⟩ : World).trigger =
      some (.valid ⟨some "X", none, none, none, none⟩)) ∧
    (((⟨some "X", none, none, none, none⟩ : Payload).name.isSome &&
      (⟨some "X", none, none, none, none⟩ : Payload).description.isSome) = false) ∧
    (FeatureChatSession.queryLoop FeatureChatSession.initSession
        ⟨⟨[], 0, false⟩, some (.valid ⟨some "X", none, none, none, none⟩)⟩ true ""
        (Msg.userMessage ::
          [Msg.envWrite (some (.valid ⟨some "X", some "Y", none, none, none⟩)),
           Msg.assistantMessage [Block.toolUse "Write" "/proj/.new_feature.json"],
           Msg.userMessage]) =
      FeatureChatSession.queryLoop FeatureChatSession.initSession
        ⟨⟨[], 0, false⟩, some (.valid ⟨some "X", none, none, none, none⟩)⟩ false ""
        [Msg.envWrite (some (.valid ⟨some "X", some "Y", none, none, none⟩)),
         Msg.assistantMessage [Block.toolUse "Write" "/proj/.new_feature.json"],
         Msg.userMessage]) ∧
    (FeatureChatSession.queryLoop FeatureChatSession.initSession
        ⟨⟨[], 0, false⟩, some (.valid ⟨some "X", none, none, none, none⟩)⟩ false ""
        [Msg.envWrite (some (.valid ⟨some "X", some "Y", none, none, none⟩)),
         Msg.assistantMessage [Block.toolUse "Write" "/proj/.new_feature.json"],
         Msg.userMessage]).chunks.any Chunk.isFeatureCreated = true :=
  ⟨rfl, rfl,
   C2_missing_field_skips_silently _ _ _ _ _ rfl rfl,
   by decide⟩

/-- After marking a session identity closed, looking that identity up reports
it closed (list-level helper for the registry). -/
theorem closed_after_mark (sid : Nat) :
    ∀ l : List RegSession,
      (match (l.map (fun t => if t.sid == sid then { t with closed := true } else t)).find?
          (fun t => t.sid == sid) with
       | some t => t.closed
       | none => true) = true
  | [] => rfl
  | h :: t => by
    cases hh : (h.sid == sid) with
    | true =>
      simp [List.find?, hh]
    | false =>
      have ih := closed_after_mark sid t
      simpa [List.find?, hh] using ih

/-- `isClosed` after `markClosed` on the same identity is true. -/
theorem isClosed_markClosed (r : RegState) (sid : Nat) :
    isClosed (markClosed r sid) sid = true := by
  unfold isClosed markClosed
  exact closed_after_mark sid r.sessions

/-- The locked swap of `create_session` preserves uniqueness of the keys of
the registry map. -/
theorem keysNodup_locked (r : RegState) (name : String) (h : keysNodup r.map) :
    keysNodup (create_session_locked r name).1.map := by
  unfold create_session_locked keysNodup eraseKey
  simp only [List.map_cons, List.nodup_cons]
  constructor
  · intro hmem
    rcases List.mem_map.mp hmem with ⟨e, he, hfst⟩
    have hpred := List.of_mem_filter he
    rw [hfst] at hpred
    simp at hpred
  · exact h.sublist ((List.filter_sublist _).map Prod.fst)

/-- C3 counterexample: starting from a registry holding one open session for
project p, the state reached right after the locked swap of `create_session`
(a state of its execution trace) already shows the new session in the map
while the evicted session is not yet closed — the close happens only after
the new session is visible. -/
theorem C3_counterexample_visible_before_close :
    ((create_session_locked ⟨[("p", 0)], [⟨0, false⟩], 1⟩ "p").1 ∈
      create_session_trace ⟨[("p", 0)], [⟨0, false⟩], 1⟩ "p") ∧
    lookupKey (create_session_locked ⟨[("p", 0)], [⟨0, false⟩], 1⟩ "p").1.map "p" =
      some 1 ∧
    isClosed (create_session_locked ⟨[("p", 0)], [⟨0, false⟩], 1⟩ "p").1 0 = false := by
  refine ⟨?_, by decide, by decide⟩
  simp [create_session_trace]

/-- C3 amended: the registry map holds at most one session per project
identifier at every point of a `create_session` call (the keys stay
duplicate-free and the evicted entry is gone the moment the new one appears),
the new session is visible from the locked swap on, and the evicted session,
when one existed, is closed by the end of the call — after the new session
became visible, not before. -/
theorem C3_registry_unique_and_close_after (r : RegState) (name : String)
    (h : keysNodup r.map) :
    (∀ r1 ∈ create_session_trace r name, keysNodup r1.map) ∧
    (∀ r1 ∈ create_session_trace r name,
      lookupKey r1.map name = some r.nextSid) ∧
    (∀ sid, lookupKey r.map name = some sid →
      isClosed (create_session_close (create_session_locked r name).1
        (create_session_locked r name).2) sid = true) := by
  have hmapEq : (create_session_close (create_session_locked r name).1
      (create_session_locked r name).2).map = (create_session_locked r name).1.map := by
    unfold create_session_close
    cases (create_session_locked r name).2 with
    | none => rfl
    | some sid => rfl
  have hlook : lookupKey (create_session_locked r name).1.map name = some r.nextSid := by
    unfold create_session_locked lookupKey
    simp [List.find?]
  refine ⟨?_, ?_, ?_⟩
  · intro r1 hr1
    simp only [create_session_trace, List.mem_cons, List.mem_singleton] at hr1
    rcases hr1 with rfl | rfl | hfalse
    · exact keysNodup_locked r name h
    · rw [keysNodup, hmapEq]
      exact keysNodup_locked r name h
    · cases hfalse
  · intro r1 hr1
    simp only [create_session_trace, List.mem_cons, List.mem_singleton] at hr1
    rcases hr1 with rfl | rfl | hfalse
    · exact hlook
    · rw [hmapEq]; exact hlook
    · cases hfalse
  · intro sid hsid
    have h2 : (create_session_locked r name).2 = some sid := by
      unfold create_session_locked
      exact hsid
    rw [h2]
    unfold create_session_close
    exact isClosed_markClosed _ sid

/-- Witness for C3 amended at a registry holding one open session for p. -/
theorem C3_registry_unique_and_close_after_witness :
    keysNodup ([("p", 0)] : List (String × Nat)) ∧
    ((∀ r1 ∈ create_session_trace ⟨[("p", 0)], [⟨0, false⟩], 1⟩ "p", keysNodup r1.map) ∧
     (∀ r1 ∈ create_session_trace ⟨[("p", 0)], [⟨0, false⟩], 1⟩ "p",
       lookupKey r1.map "p" = some 1) ∧
     (∀ sid, lookupKey ([("p", 0)] : List (String × Nat)) "p" = some sid →
       isClosed (create_session_close
         (create_session_locked ⟨[("p", 0)], [⟨0, false⟩], 1⟩ "p").1
         (create_session_locked ⟨[("p", 0)], [⟨0, false⟩], 1⟩ "p").2) sid = true)) :=
  ⟨by decide, C3_registry_unique_and_close_after ⟨[("p", 0)], [⟨0, false⟩], 1⟩ "p" (by decide)⟩

/-- Inversion for a successful insert: the inserted row has passes false and
the store gained exactly that row at the end. -/
theorem create_feature_in_db_ok (data : Payload) (st : Store) (f : Feature)
    (st1 : Store) (h : create_feature_in_db data st = .ok (f, st1)) :
    f.passes = false ∧ st1.features = st.features ++ [f] := by
  cases hname : data.name with
  | none => simp [create_feature_in_db, hname] at h
  | some nm =>
    cases hdesc : data.description with
    | none => simp [create_feature_in_db, hname, hdesc] at h
    | some ds =>
      cases hbr : st.broken with
      | true => simp [create_feature_in_db, hname, hdesc, hbr] at h
      | false =>
        simp only [create_feature_in_db, hname, hdesc, hbr] at h
        simp only [Bool.false_eq_true, if_false, Except.ok.injEq, Prod.mk.injEq] at h
        obtain ⟨hf, hst⟩ := h
        subst hf
        subst hst
        exact ⟨rfl, rfl⟩

/-- Case analysis of the armed tool-result step: either the generator
continues (session and world untouched except that the flag clears, no
feature-created chunk among the yielded chunks), or the insert succeeded and
the step returns the completed session, the grown store, the deleted trigger
file and the single feature-created chunk. -/
theorem handleToolResult_cases (s : SessionState) (w : World) :
    ((FeatureChatSession.handleToolResult s w).stop = false ∧
     (FeatureChatSession.handleToolResult s w).sess = s ∧
     (FeatureChatSession.handleToolResult s w).world = w ∧
     ∀ c ∈ (FeatureChatSession.handleToolResult s w).chunks,
       c.isFeatureCreated = false) ∨
    (∃ p f st1,
      create_feature_in_db p w.store = Except.ok (f, st1) ∧
      FeatureChatSession.handleToolResult s w =
        ⟨{ s with complete := true, createdFeatureId := some f.id },
         ⟨st1, none⟩, [Chunk.featureCreated p], true⟩) := by
  unfold FeatureChatSession.handleToolResult
  rcases htr : w.trigger with _ | tc
  · left
    refine ⟨rfl, rfl, rfl, ?_⟩
    intro c hc
    simp at hc
  · cases tc with
    | invalid =>
      left
      refine ⟨rfl, rfl, rfl, ?_⟩
      intro c hc
      simp at hc
      subst hc
      rfl
    | valid p =>
      cases hfld : (p.name.isSome && p.description.isSome) with
      | false =>
        left
        simp only [hfld, Bool.false_eq_true, if_false]
        refine ⟨by trivial, by trivial, by trivial, ?_⟩
        intro c hc
        simp at hc
      | true =>
        cases hc : create_feature_in_db p w.store with
        | error e =>
          left
          simp only [hfld, if_true, hc]
          refine ⟨by trivial, by trivial, by trivial, ?_⟩
          intro c hcm
          simp at hcm
          subst hcm
          rfl
        | ok pair =>
          right
          obtain ⟨f, st1⟩ := pair
          exact ⟨p, f, st1, hc, by simp only [hfld, if_true, hc]⟩

/-- C10: when the store insert raises, the armed tool-result step yields
exactly one error chunk for that event and changes nothing: the session state
(complete flag and created-feature id included) and the world (trigger file
still on disk, store untouched) are those the rest of the turn starts from,
the pending-write flag is cleared, and the remaining response events of the
turn are processed as usual. -/
theorem C10_store_failure_keeps_state (s : SessionState) (w : World)
    (cur : String) (p : Payload) (rest : List Msg)
    (ht : w.trigger = some (.valid p))
    (hn : p.name.isSome = true) (hd : p.description.isSome = true)
    (hb : w.store.broken = true) :
    FeatureChatSession.queryLoop s w true cur (Msg.userMessage :: rest) =
      { FeatureChatSession.queryLoop s w false cur rest with
        chunks := Chunk.error "Failed to create feature from definition." ::
          (FeatureChatSession.queryLoop s w false cur rest).chunks } := by
  obtain ⟨nm, hnm⟩ := Option.isSome_iff_exists.mp hn
  obtain ⟨ds, hds⟩ := Option.isSome_iff_exists.mp hd
  have hcf : create_feature_in_db p w.store = .error () := by
    simp [create_feature_in_db, hnm, hds, hb]
  simp [FeatureChatSession.queryLoop, FeatureChatSession.handleToolResult,
    ht, hn, hd, hcf]

/-- Witness for C10: a broken store, an armed flag and a valid trigger
payload; the turn yields the single error chunk, keeps the trigger file and
the store, stays incomplete, and ends normally. -/
theorem C10_store_failure_keeps_state_witness :
    ((⟨⟨[], 0, true⟩, some (.valid ⟨some "X", some "Y", none, none, none⟩)⟩ : World).trigger =
      some (.valid ⟨some "X", some "Y", none, none, none⟩)) ∧
    ((⟨some "X", some "Y", none, none, none⟩ : Payload).name.isSome = true) ∧
    ((⟨some "X", some "Y", none, none, none⟩ : Payload).description.isSome = true) ∧
    ((⟨⟨[], 0, true⟩, some (.valid ⟨some "X", some "Y", none, none, none⟩)⟩ : World).store.broken = true) ∧
    FeatureChatSession.queryLoop FeatureChatSession.initSession
        ⟨⟨[], 0, true⟩, some (.valid ⟨some "X", some "Y", none, none, none⟩)⟩ true ""
        [Msg.userMessage] =
      { FeatureChatSession.queryLoop FeatureChatSession.initSession
          ⟨⟨[], 0, true⟩, some (.valid ⟨some "X", some "Y", none, none, none⟩)⟩ false "" [] with
        chunks := Chunk.error "Failed to create feature from definition." ::
          (FeatureChatSession.queryLoop FeatureChatSession.initSession
            ⟨⟨[], 0, true⟩, some (.valid ⟨some "X", some "Y", none, none, none⟩)⟩ false "" []).chunks } :=
  ⟨rfl, rfl, rfl, rfl,
   C10_store_failure_keeps_state _ _ _ _ _ rfl rfl rfl rfl⟩

/-- The assistant-message block loop yields only text chunks: no
feature-created chunk can come from it. -/
theorem processBlocks_no_feature_chunk (bs : List Block) :
    ∀ (s : SessionState) (pending : Bool) (cur : String) (c : Chunk),
      c ∈ (FeatureChatSession.processBlocks s pending cur bs).chunks →
      c.isFeatureCreated = false := by
  induction bs with
  | nil =>
    intro s pending cur c hc
    simp [FeatureChatSession.processBlocks] at hc
  | cons b bs ih =>
    intro s pending cur c hc
    cases b with
    | textBlock t =>
      rcases eq_or_ne t "" with h | h
      · rw [FeatureChatSession.processBlocks, if_pos h] at hc
        exact ih s pending cur c hc
      · rw [FeatureChatSession.processBlocks, if_neg h] at hc
        simp only [List.mem_cons] at hc
        rcases hc with rfl | hc
        · rfl
        · exact ih _ pending (cur ++ t) c hc
    | toolUse nm fp =>
      rw [FeatureChatSession.processBlocks] at hc
      exact ih s _ cur c hc
    | otherBlock =>
      rw [FeatureChatSession.processBlocks] at hc
      exact ih s pending cur c hc

/-- C5: whenever a feature-created chunk appears among the chunks of a turn of
the query pipeline, it is the last chunk of the turn (no further chunks are
produced, because the generator returns right after it), every earlier chunk
is not a feature-created chunk, the store gained exactly one row and that row
has passes false, the session ends marked complete with that row as its
created-feature identifier, and the trigger file no longer exists. -/
theorem C5_feature_created_ends_turn (msgs : List Msg) :
    ∀ (s : SessionState) (w : World) (pending : Bool) (cur : String) (p : Payload),
      Chunk.featureCreated p ∈ (FeatureChatSession.queryLoop s w pending cur msgs).chunks →
      ∃ pre f,
        (FeatureChatSession.queryLoop s w pending cur msgs).chunks =
          pre ++ [Chunk.featureCreated p] ∧
        (∀ c ∈ pre, c.isFeatureCreated = false) ∧
        f.passes = false ∧
        (FeatureChatSession.queryLoop s w pending cur msgs).world.store.features =
          w.store.features ++ [f] ∧
        (FeatureChatSession.queryLoop s w pending cur msgs).sess.complete = true ∧
        (FeatureChatSession.queryLoop s w pending cur msgs).sess.createdFeatureId =
          some f.id ∧
        (FeatureChatSession.queryLoop s w pending cur msgs).world.trigger = none := by
  induction msgs with
  | nil =>
    intro s w pending cur p hmem
    simp [FeatureChatSession.queryLoop] at hmem
  | cons m rest ih =>
    intro s w pending cur p hmem
    cases m with
    | assistantMessage blocks =>
      simp only [FeatureChatSession.queryLoop] at hmem ⊢
      rw [List.mem_append] at hmem
      rcases hmem with hmem | hmem
      · have := processBlocks_no_feature_chunk blocks s pending cur _ hmem
        simp [Chunk.isFeatureCreated] at this
      · obtain ⟨pre, f, h1, h2, h3, h4, h5, h6, h7⟩ := ih _ w _ _ p hmem
        refine ⟨(FeatureChatSession.processBlocks s pending cur blocks).chunks ++ pre,
          f, ?_, ?_, h3, h4, h5, h6, h7⟩
        · rw [h1, List.append_assoc]
        · intro c hc
          rw [List.mem_append] at hc
          rcases hc with hc | hc
          · exact processBlocks_no_feature_chunk blocks s pending cur c hc
          · exact h2 c hc
    | userMessage =>
      cases pending with
      | false =>
        simp only [FeatureChatSession.queryLoop, Bool.false_eq_true, if_false]
          at hmem ⊢
        exact ih s w false cur p hmem
      | true =>
        rcases handleToolResult_cases s w with
          ⟨hstop, hsess, hworld, hch⟩ | ⟨p1, f1, st1, hcf, heq⟩
        · simp only [FeatureChatSession.queryLoop, if_true, hstop,
            Bool.false_eq_true, if_false, hsess, hworld] at hmem ⊢
          rw [List.mem_append] at hmem
          rcases hmem with hmem | hmem
          · have := hch _ hmem
            simp [Chunk.isFeatureCreated] at this
          · obtain ⟨pre, f, h1, h2, h3, h4, h5, h6, h7⟩ := ih s w false cur p hmem
            refine ⟨(FeatureChatSession.handleToolResult s w).chunks ++ pre,
              f, ?_, ?_, h3, h4, h5, h6, h7⟩
            · rw [h1, List.append_assoc]
            · intro c hc
              rw [List.mem_append] at hc
              rcases hc with hc | hc
              · exact hch c hc
              · exact h2 c hc
        · simp only [FeatureChatSession.queryLoop, if_true, heq] at hmem ⊢
          simp only [List.mem_singleton] at hmem
          have hp : p = p1 := by
            have := hmem
            simp [Chunk.featureCreated.injEq] at this
            exact this
          subst hp
          obtain ⟨hpass, hfeat⟩ := create_feature_in_db_ok _ w.store f1 st1 hcf
          refine ⟨[], f1, by simp, ?_, hpass, by simpa using hfeat, ?_, ?_, ?_⟩
          · intro c hc
            simp at hc
          · simp
          · simp
          · simp
    | envWrite t =>
      simp only [FeatureChatSession.queryLoop] at hmem ⊢
      exact ih s { w with trigger := t } pending cur p hmem
    | otherMsg =>
      simp only [FeatureChatSession.queryLoop] at hmem ⊢
      exact ih s w pending cur p hmem

/-- Witness for C5: a complete concrete turn in which the agent writes a
valid trigger file and the tool-result step creates the feature. -/
theorem C5_feature_created_ends_turn_witness :
    (Chunk.featureCreated ⟨some "X", some "Y", none, none, none⟩ ∈
      (FeatureChatSession.queryLoop FeatureChatSession.initSession
        ⟨⟨[], 0, false⟩, some (.valid ⟨some "X", some "Y", none, none, none⟩)⟩ false ""
        [Msg.assistantMessage [Block.toolUse "Write" "/proj/.new_feature.json"],
         Msg.userMessage]).chunks) ∧
    (∃ pre f,
      (FeatureChatSession.queryLoop FeatureChatSession.initSession
        ⟨⟨[], 0, false⟩, some (.valid ⟨some "X", some "Y", none, none, none⟩)⟩ false ""
        [Msg.assistantMessage [Block.toolUse "Write" "/proj/.new_feature.json"],
         Msg.userMessage]).chunks =
          pre ++ [Chunk.featureCreated ⟨some "X", some "Y", none, none, none⟩] ∧
      (∀ c ∈ pre, c.isFeatureCreated = false) ∧
      f.passes = false ∧
      (FeatureChatSession.queryLoop FeatureChatSession.initSession
        ⟨⟨[], 0, false⟩, some (.valid ⟨some "X", some "Y", none, none, none⟩)⟩ false ""
        [Msg.assistantMessage [Block.toolUse "Write" "/proj/.new_feature.json"],
         Msg.userMessage]).world.store.features =
          (⟨⟨[], 0, false⟩, some (.valid ⟨some "X", some "Y", none, none, none⟩)⟩ :
            World).store.features ++ [f] ∧
      (FeatureChatSession.queryLoop FeatureChatSession.initSession
        ⟨⟨[], 0, false⟩, some (.valid ⟨some "X", some "Y", none, none, none⟩)⟩ false ""
        [Msg.assistantMessage [Block.toolUse "Write" "/proj/.new_feature.json"],
         Msg.userMessage]).sess.complete = true ∧
      (FeatureChatSession.queryLoop FeatureChatSession.initSession
        ⟨⟨[], 0, false⟩, some (.valid ⟨some "X", some "Y", none, none, none⟩)⟩ false ""
        [Msg.assistantMessage [Block.toolUse "Write" "/proj/.new_feature.json"],
         Msg.userMessage]).sess.createdFeatureId = some f.id ∧
      (FeatureChatSession.queryLoop FeatureChatSession.initSession
        ⟨⟨[], 0, false⟩, some (.valid ⟨some "X", some "Y", none, none, none⟩)⟩ false ""
        [Msg.assistantMessage [Block.toolUse "Write" "/proj/.new_feature.json"],
         Msg.userMessage]).world.trigger = none) :=
  ⟨by decide,
   C5_feature_created_ends_turn _ FeatureChatSession.initSession _ false "" _ (by decide)⟩

/-- The block loop never touches the client handle, the completion flag or
the created-feature id of the session. -/
theorem processBlocks_state_fields (bs : List Block) :
    ∀ (s : SessionState) (pending : Bool) (cur : String),
      (FeatureChatSession.processBlocks s pending cur bs).sess.clientOpen = s.clientOpen ∧
      (FeatureChatSession.processBlocks s pending cur bs).sess.complete = s.complete ∧
      (FeatureChatSession.processBlocks s pending cur bs).sess.createdFeatureId =
        s.createdFeatureId := by
  induction bs with
  | nil =>
    intro s pending cur
    exact ⟨rfl, rfl, rfl⟩
  | cons b bs ih =>
    intro s pending cur
    cases b with
    | textBlock t =>
      rcases eq_or_ne t "" with h | h
      · rw [FeatureChatSession.processBlocks, if_pos h]
        exact ih s pending cur
      · rw [FeatureChatSession.processBlocks, if_neg h]
        exact ih { s with messages := s.messages ++ [⟨"assistant", t⟩] } pending (cur ++ t)
    | toolUse nm fp =>
      rw [FeatureChatSession.processBlocks]
      exact ih s _ cur
    | otherBlock =>
      rw [FeatureChatSession.processBlocks]
      exact ih s pending cur

/-- Through a whole turn of the pipeline the invariant that the completion
flag equals presence of a created-feature id is preserved, and neither field
is ever reset: a true flag stays true and a present id stays present. -/
theorem queryLoop_complete_inv (msgs : List Msg) :
    ∀ (s : SessionState) (w : World) (pending : Bool) (cur : String),
      (s.complete = s.createdFeatureId.isSome →
        (FeatureChatSession.queryLoop s w pending cur msgs).sess.complete =
          (FeatureChatSession.queryLoop s w pending cur msgs).sess.createdFeatureId.isSome) ∧
      (s.complete = true →
        (FeatureChatSession.queryLoop s w pending cur msgs).sess.complete = true) ∧
      (s.createdFeatureId.isSome = true →
        (FeatureChatSession.queryLoop s w pending cur msgs).sess.createdFeatureId.isSome =
          true) := by
  induction msgs with
  | nil =>
    intro s w pending cur
    exact ⟨fun h => h, fun h => h, fun h => h⟩
  | cons m rest ih =>
    intro s w pending cur
    cases m with
    | assistantMessage blocks =>
      obtain ⟨hbo, hbc, hbi⟩ := processBlocks_state_fields blocks s pending cur
      obtain ⟨i1, i2, i3⟩ := ih (FeatureChatSession.processBlocks s pending cur blocks).sess
        w (FeatureChatSession.processBlocks s pending cur blocks).pending
        (FeatureChatSession.processBlocks s pending cur blocks).cur
      simp only [FeatureChatSession.queryLoop]
      refine ⟨fun h => i1 ?_, fun h => i2 ?_, fun h => i3 ?_⟩
      · rw [hbc, hbi]; exact h
      · rw [hbc]; exact h
      · rw [hbi]; exact h
    | userMessage =>
      cases pending with
      | false =>
        simp only [FeatureChatSession.queryLoop, Bool.false_eq_true, if_false]
        exact ih s w false cur
      | true =>
        rcases handleToolResult_cases s w with
          ⟨hstop, hsess, hworld, _⟩ | ⟨p1, f1, st1, hcf, heq⟩
        · simp only [FeatureChatSession.queryLoop, if_true, hstop,
            Bool.false_eq_true, if_false, hsess, hworld]
          exact ih s w false cur
        · simp only [FeatureChatSession.queryLoop, if_true, heq]
          exact ⟨fun _ => by simp, fun _ => by simp, fun _ => by simp⟩
    | envWrite t =>
      simp only [FeatureChatSession.queryLoop]
      exact ih s { w with trigger := t } pending cur
    | otherMsg =>
      simp only [FeatureChatSession.queryLoop]
      exact ih s w pending cur

/-- `close` never touches the completion flag or the created-feature id. -/
theorem close_fields (s : SessionState) :
    (FeatureChatSession.close s).complete = s.complete ∧
    (FeatureChatSession.close s).createdFeatureId = s.createdFeatureId := by
  unfold FeatureChatSession.close
  cases h : s.clientOpen <;> simp

/-- `start` preserves the completion invariant and never resets the
completion flag or the created-feature id. -/
theorem start_sess_inv (s : SessionState) (w : World) (a b : Bool)
    (msgs : List Msg) :
    (s.complete = s.createdFeatureId.isSome →
      (FeatureChatSession.start s w a b msgs).sess.complete =
        (FeatureChatSession.start s w a b msgs).sess.createdFeatureId.isSome) ∧
    (s.complete = true →
      (FeatureChatSession.start s w a b msgs).sess.complete = true) ∧
    (s.createdFeatureId.isSome = true →
      (FeatureChatSession.start s w a b msgs).sess.createdFeatureId.isSome = true) := by
  unfold FeatureChatSession.start FeatureChatSession.query_claude
  cases a with
  | false => simp
  | true =>
    cases b with
    | false => simp
    | true =>
      have h := queryLoop_complete_inv msgs { s with clientOpen := true }
        { w with trigger := none } false ""
      simpa using h

/-- `send_message` preserves the completion invariant and never resets the
completion flag or the created-feature id. -/
theorem send_message_sess_inv (s : SessionState) (w : World) (m : String)
    (msgs : List Msg) :
    (s.complete = s.createdFeatureId.isSome →
      (FeatureChatSession.send_message s w m msgs).sess.complete =
        (FeatureChatSession.send_message s w m msgs).sess.createdFeatureId.isSome) ∧
    (s.complete = true →
      (FeatureChatSession.send_message s w m msgs).sess.complete = true) ∧
    (s.createdFeatureId.isSome = true →
      (FeatureChatSession.send_message s w m msgs).sess.createdFeatureId.isSome = true) := by
  unfold FeatureChatSession.send_message FeatureChatSession.query_claude
  cases hco : s.clientOpen with
  | false => simp [hco]
  | true =>
    have h := queryLoop_complete_inv msgs
      { s with messages := s.messages ++ [⟨"user", m⟩] } w false ""
    simpa [hco] using h

/-- C9: the invariant that the completion flag is set exactly when a
created-feature id is present holds at construction and is preserved by
`start`, `send_message` and `close`; moreover neither field is ever reset:
once the flag is true it stays true and once an id is present an id stays
present through every operation. -/
theorem C9_complete_iff_created_id (s : SessionState) (w : World)
    (skillExists clientOk : Bool) (m : String) (msgs : List Msg)
    (h : s.complete = s.createdFeatureId.isSome) :
    (FeatureChatSession.initSession.complete =
      FeatureChatSession.initSession.createdFeatureId.isSome) ∧
    ((FeatureChatSession.start s w skillExists clientOk msgs).sess.complete =
      (FeatureChatSession.start s w skillExists clientOk
        msgs).sess.createdFeatureId.isSome) ∧
    ((FeatureChatSession.send_message s w m msgs).sess.complete =
      (FeatureChatSession.send_message s w m msgs).sess.createdFeatureId.isSome) ∧
    ((FeatureChatSession.close s).complete =
      (FeatureChatSession.close s).createdFeatureId.isSome) ∧
    (s.complete = true →
      (FeatureChatSession.start s w skillExists clientOk msgs).sess.complete = true ∧
      (FeatureChatSession.send_message s w m msgs).sess.complete = true ∧
      (FeatureChatSession.close s).complete = true) ∧
    (s.createdFeatureId.isSome = true →
      (FeatureChatSession.start s w skillExists clientOk
        msgs).sess.createdFeatureId.isSome = true ∧
      (FeatureChatSession.send_message s w m msgs).sess.createdFeatureId.isSome = true ∧
      (FeatureChatSession.close s).createdFeatureId.isSome = true) := by
  obtain ⟨hs1, hs2, hs3⟩ := start_sess_inv s w skillExists clientOk msgs
  obtain ⟨hm1, hm2, hm3⟩ := send_message_sess_inv s w m msgs
  obtain ⟨hc1, hc2⟩ := close_fields s
  refine ⟨rfl, hs1 h, hm1 h, ?_, ?_, ?_⟩
  · rw [hc1, hc2, h]
  · intro hcomp
    exact ⟨hs2 hcomp, hm2 hcomp, by rw [hc1]; exact hcomp⟩
  · intro hid
    exact ⟨hs3 hid, hm3 hid, by rw [hc2]; exact hid⟩

/-- Witness for C9 at the freshly initialized session. -/
theorem C9_complete_iff_created_id_witness :
    (FeatureChatSession.initSession.complete =
      FeatureChatSession.initSession.createdFeatureId.isSome) ∧
    ((FeatureChatSession.initSession.complete =
        FeatureChatSession.initSession.createdFeatureId.isSome) ∧
      ((FeatureChatSession.start FeatureChatSession.initSession
          ⟨⟨[], 0, false⟩, none⟩ true true []).sess.complete =
        (FeatureChatSession.start FeatureChatSession.initSession
          ⟨⟨[], 0, false⟩, none⟩ true true []).sess.createdFeatureId.isSome) ∧
      ((FeatureChatSession.send_message FeatureChatSession.initSession
          ⟨⟨[], 0, false⟩, none⟩ "hi" []).sess.complete =
        (FeatureChatSession.send_message FeatureChatSession.initSession
          ⟨⟨[], 0, false⟩, none⟩ "hi" []).sess.createdFeatureId.isSome) ∧
      ((FeatureChatSession.close FeatureChatSession.initSession).complete =
        (FeatureChatSession.close FeatureChatSession.initSession).createdFeatureId.isSome) ∧
      (FeatureChatSession.initSession.complete = true →
        (FeatureChatSession.start FeatureChatSession.initSession
          ⟨⟨[], 0, false⟩, none⟩ true true []).sess.complete = true ∧
        (FeatureChatSession.send_message FeatureChatSession.initSession
          ⟨⟨[], 0, false⟩, none⟩ "hi" []).sess.complete = true ∧
        (FeatureChatSession.close FeatureChatSession.initSession).complete = true) ∧
      (FeatureChatSession.initSession.createdFeatureId.isSome = true →
        (FeatureChatSession.start FeatureChatSession.initSession
          ⟨⟨[], 0, false⟩, none⟩ true true []).sess.createdFeatureId.isSome = true ∧
        (FeatureChatSession.send_message FeatureChatSession.initSession
          ⟨⟨[], 0, false⟩, none⟩ "hi" []).sess.createdFeatureId.isSome = true ∧
        (FeatureChatSession.close
          FeatureChatSession.initSession).createdFeatureId.isSome = true)) :=
  ⟨rfl, C9_complete_iff_created_id FeatureChatSession.initSession
    ⟨⟨[], 0, false⟩, none⟩ true true "hi" [] rfl⟩
